import Mathlib

/-! Shallow embedding of the submission controller in `src/routes/+page.svelte`
of the isrcs-to-dab repository.  The component owns five pieces of state
(`isrcInput`, `isLoading`, `resultUrl`, `errorMessage`, `successMessage`),
parses the raw input into a cleaned list of ISRC lines, optionally issues one
POST request, and maps the response (or a thrown exception) onto the UI state.
The external world is modelled by `FetchOutcome`: the fetch may throw, or a
response arrives whose body either parses as JSON or makes `response.json()`
throw. -/

namespace IsrcsToDab

/-- Characters treated as whitespace by JavaScript `String.prototype.trim`
(ASCII whitespace, NBSP, BOM and the Unicode space separators). -/
def isJsWhitespace (c : Char) : Bool :=
  c = ' ' || c = '\t' || c = '\n' || c = '\r' || c = '\x0b' || c = '\x0c' ||
  c.toNat = 0xA0 || c.toNat = 0x1680 ||
  (0x2000 ≤ c.toNat && c.toNat ≤ 0x200A) ||
  c.toNat = 0x2028 || c.toNat = 0x2029 || c.toNat = 0x202F ||
  c.toNat = 0x205F || c.toNat = 0x3000 || c.toNat = 0xFEFF

/-- JavaScript `String.prototype.trim` on a character list: drop whitespace
from both ends. -/
def jsTrimList (l : List Char) : List Char :=
  ((l.dropWhile isJsWhitespace).reverse.dropWhile isJsWhitespace).reverse

/-- JavaScript `line.trim()`. -/
def jsTrim (s : String) : String := String.mk (jsTrimList s.data)

/-- Splitting on the regex `\r?\n`, as in `isrcInput.split(/\r?\n/)`:
a CRLF pair or a lone LF is a separator; a lone CR stays in its line. -/
def splitLinesAux : List Char → List Char → List String
  | [], acc => [String.mk acc.reverse]
  | '\r' :: '\n' :: rest, acc => String.mk acc.reverse :: splitLinesAux rest []
  | '\n' :: rest, acc => String.mk acc.reverse :: splitLinesAux rest []
  | c :: rest, acc => splitLinesAux rest (c :: acc)

/-- The full split `isrcInput.split(/\r?\n/)` of the raw input. -/
def splitLines (s : String) : List String := splitLinesAux s.data []

/-- The parse step of `handleSubmit`: split by newlines (Windows or Unix),
trim each line, and keep the lines of positive length. -/
def parseIsrcs (input : String) : List String :=
  ((splitLines input).map jsTrim).filter (fun line => line.length > 0)

/-- The five reactive fields of the page component. -/
structure PageState where
  isrcInput : String
  isLoading : Bool
  resultUrl : Option String
  errorMessage : Option String
  successMessage : Option String
deriving DecidableEq, Repr

/-- The initial component state: empty input, nothing loading, no outcome. -/
def initState : PageState :=
  { isrcInput := "", isLoading := false, resultUrl := none,
    errorMessage := none, successMessage := none }

/-- The JSON response shape `{success, message?, url?}`; a field the server
omitted is `none`. -/
structure ResponseData where
  success : Bool
  message : Option String
  url : Option String
deriving DecidableEq, Repr

/-- The body of an HTTP response: either it parses as JSON, or
`response.json()` throws an exception carrying `errMessage`. -/
inductive Body where
  | json (data : ResponseData)
  | invalid (errMessage : Option String)
deriving DecidableEq, Repr

/-- What the fetch call does: throw (network failure, exception message
`errMessage`), or deliver a response with an HTTP status and a body. -/
inductive FetchOutcome where
  | networkError (errMessage : Option String)
  | response (status : Nat) (body : Body)
deriving DecidableEq, Repr

/-- JavaScript truthiness of an optional string: a missing field and the
empty string are falsy. -/
def truthy : Option String → Bool
  | none => false
  | some s => !(s == "")

/-- JavaScript `a || b` where `a` is an optional string: `b` when `a` is
missing or falsy (empty). -/
def orDefault (a : Option String) (b : String) : String :=
  match a with
  | some s => if s == "" then b else s
  | none => b

/-- The flag `response.ok`: the HTTP status lies in the 2xx range. -/
def responseOk (status : Nat) : Bool := 200 ≤ status && status ≤ 299

/-- The template-literal default `Request failed with status ${response.status}`. -/
def statusMessage (status : Nat) : String :=
  "Request failed with status " ++ toString status

/-- The state committed to the render tree right before the fetch is
dispatched: loading set, every prior outcome field cleared. -/
def loadingState (s : PageState) : PageState :=
  { s with isLoading := true, resultUrl := none,
           errorMessage := none, successMessage := none }

/-- The result of one resolved run of `handleSubmit`: the final page state,
and the request body sent over the network (`none` when no request was made). -/
structure SubmitResult where
  state : PageState
  request : Option (List String)
deriving DecidableEq, Repr

/-- One resolved invocation of `handleSubmit`, given what the network would
do.  Mirrors the source: set loading and clear outcomes, parse, fail fast on
an empty cleaned list, otherwise POST the cleaned list and dispatch on the
response; the catch branch surfaces the exception message and the finally
branch clears the loading flag. -/
def handleSubmit (s : PageState) (outcome : FetchOutcome) : SubmitResult :=
  let s0 := loadingState s
  let isrcs := parseIsrcs s0.isrcInput
  if isrcs.length = 0 then
    { state := { s0 with errorMessage := some "Please enter at least one ISRC.",
                         isLoading := false },
      request := none }
  else
    let s1 :=
      match outcome with
      | .networkError m =>
          { s0 with errorMessage := some (orDefault m "An unexpected error occurred.") }
      | .response status body =>
          match body with
          | .invalid m =>
              { s0 with errorMessage := some (orDefault m "An unexpected error occurred.") }
          | .json data =>
              if !responseOk status || !data.success then
                let s' := { s0 with
                  errorMessage := some (orDefault data.message (statusMessage status)) }
                if truthy data.url then { s' with resultUrl := data.url } else s'
              else
                { s0 with successMessage := some (orDefault data.message "Success!"),
                          resultUrl := data.url,
                          isrcInput := "" }
    { state := { s1 with isLoading := false }, request := some isrcs }

/-- The template condition `{#if isLoading}`. -/
def showsLoading (s : PageState) : Bool := s.isLoading

/-- The template condition `{#if successMessage}`. -/
def showsSuccess (s : PageState) : Bool := truthy s.successMessage

/-- The template condition `{#if errorMessage}`. -/
def showsError (s : PageState) : Bool := truthy s.errorMessage

/-- No outcome is displayed: neither loading nor a success or error message. -/
def showsNone (s : PageState) : Bool :=
  !showsLoading s && !showsSuccess s && !showsError s

/-- How many of the four displayable outcomes {loading, success, error, none}
are active. -/
def displayCount (s : PageState) : Nat :=
  (if showsLoading s then 1 else 0) + (if showsSuccess s then 1 else 0) +
  (if showsError s then 1 else 0) + (if showsNone s then 1 else 0)

/-- The success branch is taken exactly when the cleaned list is non-empty and
the outcome is a JSON response with a 2xx status and `success: true`. -/
def isSuccessOutcome (s : PageState) (outcome : FetchOutcome) : Bool :=
  !(parseIsrcs s.isrcInput).isEmpty &&
  match outcome with
  | .response status (.json data) => responseOk status && data.success
  | _ => false

/-- A convenient concrete state whose cleaned input list is non-empty. -/
def sampleState : PageState := { initState with isrcInput := "USRC12345678" }

lemma length_pos_bool (s : String) : decide (0 < s.length) = !(s == "") := by
  by_cases h : s = ""
  · subst h; rfl
  · have hb : (s == "") = false := beq_eq_false_iff_ne.mpr h
    rw [hb, Bool.not_false, decide_eq_true_eq]
    have hd : s.data ≠ [] := fun hnil => h (String.ext hnil)
    exact List.length_pos.mpr hd

lemma statusMessage_ne_empty (status : Nat) : (statusMessage status == "") = false := by
  apply beq_eq_false_iff_ne.mpr
  intro hcontra
  have hlen := congrArg String.length hcontra
  rw [statusMessage, String.length_append] at hlen
  have h27 : "Request failed with status ".length = 27 := rfl
  have h0 : "".length = 0 := rfl
  omega

lemma orDefault_ne_empty (m : Option String) (d : String) (hd : (d == "") = false) :
    (orDefault m d == "") = false := by
  rcases m with _ | s
  · simpa [orDefault] using hd
  · cases hs : (s == "") <;> simp [orDefault, hs, hd]

lemma handleSubmit_empty (s : PageState) (outcome : FetchOutcome)
    (h : parseIsrcs s.isrcInput = []) :
    handleSubmit s outcome =
      { state := { isrcInput := s.isrcInput, isLoading := false, resultUrl := none,
                   errorMessage := some "Please enter at least one ISRC.",
                   successMessage := none },
        request := none } := by
  simp [handleSubmit, loadingState, h]

lemma handleSubmit_networkError (s : PageState) (m : Option String)
    (h : parseIsrcs s.isrcInput ≠ []) :
    handleSubmit s (.networkError m) =
      { state := { isrcInput := s.isrcInput, isLoading := false, resultUrl := none,
                   errorMessage := some (orDefault m "An unexpected error occurred."),
                   successMessage := none },
        request := some (parseIsrcs s.isrcInput) } := by
  simp [handleSubmit, loadingState, List.length_eq_zero, h]

lemma handleSubmit_invalid (s : PageState) (status : Nat) (m : Option String)
    (h : parseIsrcs s.isrcInput ≠ []) :
    handleSubmit s (.response status (.invalid m)) =
      { state := { isrcInput := s.isrcInput, isLoading := false, resultUrl := none,
                   errorMessage := some (orDefault m "An unexpected error occurred."),
                   successMessage := none },
        request := some (parseIsrcs s.isrcInput) } := by
  simp [handleSubmit, loadingState, List.length_eq_zero, h]

lemma handleSubmit_json_fail (s : PageState) (status : Nat) (data : ResponseData)
    (h : parseIsrcs s.isrcInput ≠ [])
    (hfail : responseOk status = false ∨ data.success = false) :
    handleSubmit s (.response status (.json data)) =
      { state := { isrcInput := s.isrcInput, isLoading := false,
                   resultUrl := if truthy data.url then data.url else none,
                   errorMessage := some (orDefault data.message (statusMessage status)),
                   successMessage := none },
        request := some (parseIsrcs s.isrcInput) } := by
  have hcond : (!responseOk status || !data.success) = true := by
    rcases hfail with h1 | h1 <;> simp [h1]
  cases htu : truthy data.url <;>
    simp [handleSubmit, loadingState, List.length_eq_zero, h, hcond, htu]

lemma handleSubmit_json_ok (s : PageState) (status : Nat) (data : ResponseData)
    (h : parseIsrcs s.isrcInput ≠ [])
    (hok : responseOk status = true) (hsucc : data.success = true) :
    handleSubmit s (.response status (.json data)) =
      { state := { isrcInput := "", isLoading := false, resultUrl := data.url,
                   errorMessage := none,
                   successMessage := some (orDefault data.message "Success!") },
        request := some (parseIsrcs s.isrcInput) } := by
  simp [handleSubmit, loadingState, List.length_eq_zero, h, hok, hsucc]

lemma displayCount_error_state (inp : String) (ru : Option String) (e : String)
    (he : (e == "") = false) :
    displayCount { isrcInput := inp, isLoading := false, resultUrl := ru,
                   errorMessage := some e, successMessage := none } = 1 := by
  simp [displayCount, showsLoading, showsSuccess, showsError, showsNone, truthy, he]

lemma displayCount_success_state (inp : String) (ru : Option String) (m : String)
    (hm : (m == "") = false) :
    displayCount { isrcInput := inp, isLoading := false, resultUrl := ru,
                   errorMessage := none, successMessage := some m } = 1 := by
  simp [displayCount, showsLoading, showsSuccess, showsError, showsNone, truthy, hm]

/-- C1: the parse step of handleSubmit produces exactly the lines that are
non-empty after trimming their surrounding whitespace, in their original
order, splitting on CRLF or LF; the documented sample input yields exactly
the two ISRCs. -/
theorem parseIsrcs_cleaned_lines :
    (∀ raw : String,
        parseIsrcs raw =
          ((splitLines raw).map jsTrim).filter (fun line => !(line == ""))) ∧
    parseIsrcs "USRC12345678\n\nUSRC87654321\r\n  \n" =
      ["USRC12345678", "USRC87654321"] := by
  constructor
  · intro raw
    unfold parseIsrcs
    exact List.filter_congr (fun x _ => length_pos_bool x)
  · decide

/-- C2: with a non-empty cleaned list, handleSubmit enters the success state
iff the response status is 2xx and the parsed body has `success: true`; in
that case the success message is the response's message (the default
Success! when none is provided), the result url is the response's url, and
the raw input is cleared. -/
theorem handleSubmit_success_iff (s : PageState) (status : Nat) (data : ResponseData)
    (h : parseIsrcs s.isrcInput ≠ []) :
    ((handleSubmit s (.response status (.json data))).state.successMessage ≠ none
        ↔ (responseOk status = true ∧ data.success = true)) ∧
    (responseOk status = true → data.success = true →
      (handleSubmit s (.response status (.json data))).state.successMessage
          = some (orDefault data.message "Success!") ∧
      (handleSubmit s (.response status (.json data))).state.resultUrl = data.url ∧
      (handleSubmit s (.response status (.json data))).state.isrcInput = "") := by
  cases hok : responseOk status <;> cases hsucc : data.success
  · rw [handleSubmit_json_fail s status data h (Or.inl hok)]; simp
  · rw [handleSubmit_json_fail s status data h (Or.inl hok)]; simp
  · rw [handleSubmit_json_fail s status data h (Or.inr hsucc)]; simp
  · rw [handleSubmit_json_ok s status data h hok hsucc]; simp

/-- Witness for C2: a 200 response with `success: true` and a url produces
the default success message, surfaces the url and clears the input. -/
theorem handleSubmit_success_iff_witness :
    (handleSubmit sampleState
        (.response 200 (.json ⟨true, none, some "https://x/lib/42"⟩))).state.successMessage
      = some "Success!" ∧
    (handleSubmit sampleState
        (.response 200 (.json ⟨true, none, some "https://x/lib/42"⟩))).state.resultUrl
      = some "https://x/lib/42" ∧
    (handleSubmit sampleState
        (.response 200 (.json ⟨true, none, some "https://x/lib/42"⟩))).state.isrcInput
      = "" :=
  (handleSubmit_success_iff sampleState 200 ⟨true, none, some "https://x/lib/42"⟩
    (by decide)).2 (by decide) rfl

/-- C3 counterexample: a 500 response whose body is not valid JSON makes
`response.json()` throw, so the catch branch surfaces the parse exception's
message, not the status-derived default the claim requires for a non-2xx
response without a provided message. -/
theorem handleSubmit_invalidJson_counterexample :
    (handleSubmit sampleState
        (.response 500 (.invalid (some "Unexpected token < in JSON at position 0")))).state.errorMessage
      = some "Unexpected token < in JSON at position 0" ∧
    (handleSubmit sampleState
        (.response 500 (.invalid (some "Unexpected token < in JSON at position 0")))).state.errorMessage
      ≠ some (statusMessage 500) := by decide

/-- C3 amended: for every failure response whose body parses as JSON (non-2xx
status or `success: false`), handleSubmit ends in the error state with the
response's message, or the status-derived default when none is provided; a
response whose body fails to parse instead surfaces the parse exception's
message. -/
theorem handleSubmit_failure_message (s : PageState) (status : Nat) (data : ResponseData)
    (h : parseIsrcs s.isrcInput ≠ [])
    (hfail : responseOk status = false ∨ data.success = false) :
    (handleSubmit s (.response status (.json data))).state.errorMessage
        = some (orDefault data.message (statusMessage status)) ∧
    (handleSubmit s (.response status (.json data))).state.successMessage = none ∧
    (data.message = none →
      (handleSubmit s (.response status (.json data))).state.errorMessage
        = some (statusMessage status)) ∧
    (∀ st m, (handleSubmit s (.response st (.invalid m))).state.errorMessage
        = some (orDefault m "An unexpected error occurred.")) := by
  rw [handleSubmit_json_fail s status data h hfail]
  refine ⟨rfl, rfl, ?_, ?_⟩
  · intro hm; simp [hm, orDefault]
  · intro st m; rw [handleSubmit_invalid s st m h]

/-- Witness for C3's amended theorem: a 500 response with `success: false`
and no message yields the status-derived default error message. -/
theorem handleSubmit_failure_message_witness :
    (handleSubmit sampleState (.response 500 (.json ⟨false, none, none⟩))).state.errorMessage
      = some "Request failed with status 500" :=
  (handleSubmit_failure_message sampleState 500 ⟨false, none, none⟩
    (by decide) (Or.inr rfl)).2.2.1 rfl

/-- C4: an input whose cleaned list is empty issues no network request and
ends in the validation error state; conversely every issued request carries
exactly the non-empty cleaned list; the sample blank input cleans to the
empty list. -/
theorem handleSubmit_empty_input (s : PageState) (outcome : FetchOutcome)
    (h : parseIsrcs s.isrcInput = []) :
    (handleSubmit s outcome).request = none ∧
    (handleSubmit s outcome).state.errorMessage = some "Please enter at least one ISRC." ∧
    (handleSubmit s outcome).state.successMessage = none ∧
    (handleSubmit s outcome).state.resultUrl = none ∧
    (∀ t : PageState, ∀ o : FetchOutcome, ∀ l : List String,
        (handleSubmit t o).request = some l → l = parseIsrcs t.isrcInput ∧ l ≠ []) ∧
    parseIsrcs "   \n\n" = [] := by
  rw [handleSubmit_empty s outcome h]
  refine ⟨rfl, rfl, rfl, rfl, ?_, by decide⟩
  intro t o l hreq
  by_cases ht : parseIsrcs t.isrcInput = []
  · rw [handleSubmit_empty t o ht] at hreq
    exact absurd hreq (by simp)
  · have : (handleSubmit t o).request = some (parseIsrcs t.isrcInput) := by
      rcases o with m | ⟨status, data | m⟩
      · rw [handleSubmit_networkError t m ht]
      · cases hok : responseOk status <;> cases hsucc : data.success
        · rw [handleSubmit_json_fail t status data ht (Or.inl hok)]
        · rw [handleSubmit_json_fail t status data ht (Or.inl hok)]
        · rw [handleSubmit_json_fail t status data ht (Or.inr hsucc)]
        · rw [handleSubmit_json_ok t status data ht hok hsucc]
      · rw [handleSubmit_invalid t status m ht]
    rw [this] at hreq
    have hl : l = parseIsrcs t.isrcInput := (Option.some_injective _ hreq).symm
    exact ⟨hl, fun hc => ht (hl ▸ hc)⟩

/-- Witness for C4: submitting whitespace-only input sends nothing and shows
the local validation error. -/
theorem handleSubmit_empty_input_witness :
    (handleSubmit { initState with isrcInput := "   \n\n" } (.networkError none)).request = none ∧
    (handleSubmit { initState with isrcInput := "   \n\n" } (.networkError none)).state.errorMessage
      = some "Please enter at least one ISRC." :=
  ⟨(handleSubmit_empty_input { initState with isrcInput := "   \n\n" }
      (.networkError none) (by decide)).1,
   (handleSubmit_empty_input { initState with isrcInput := "   \n\n" }
      (.networkError none) (by decide)).2.1⟩

/-- C5 counterexample: a failure response whose JSON payload includes the
empty string as its url leaves the result url unset, so a payload that
includes a url is not always surfaced. -/
theorem failureUrl_empty_counterexample :
    (handleSubmit sampleState
        (.response 500 (.json ⟨false, some "db down", some ""⟩))).state.resultUrl = none ∧
    (some "" : Option String) ≠ none := by decide

/-- C5 amended: for every failure response (non-2xx status or
`success: false`) whose JSON payload includes a non-empty url, handleSubmit
sets the result url to that url, rendered alongside the error message. -/
theorem handleSubmit_failure_url (s : PageState) (status : Nat) (data : ResponseData)
    (u : String) (h : parseIsrcs s.isrcInput ≠ [])
    (hfail : responseOk status = false ∨ data.success = false)
    (hurl : data.url = some u) (hu : u ≠ "") :
    (handleSubmit s (.response status (.json data))).state.resultUrl = some u ∧
    (handleSubmit s (.response status (.json data))).state.errorMessage
      = some (orDefault data.message (statusMessage status)) := by
  rw [handleSubmit_json_fail s status data h hfail]
  have hbe : (u == "") = false := beq_eq_false_iff_ne.mpr hu
  exact ⟨by simp [hurl, truthy, hbe], rfl⟩

/-- Witness for C5's amended theorem: a 500 failure with a non-empty url
still surfaces the url next to the error message. -/
theorem handleSubmit_failure_url_witness :
    (handleSubmit sampleState
        (.response 500 (.json ⟨false, some "db down", some "https://x/lib/42"⟩))).state.resultUrl
      = some "https://x/lib/42" :=
  (handleSubmit_failure_url sampleState 500 ⟨false, some "db down", some "https://x/lib/42"⟩
    "https://x/lib/42" (by decide) (Or.inr rfl) rfl (by decide)).1

/-- C6: on a transport failure or a body that fails to parse, handleSubmit
ends in the error state carrying the exception's message (the generic default
when the exception provides none), and no url is surfaced. -/
theorem handleSubmit_transport_failure (s : PageState) (h : parseIsrcs s.isrcInput ≠ []) :
    (∀ m, (handleSubmit s (.networkError m)).state.errorMessage
          = some (orDefault m "An unexpected error occurred.") ∧
        (handleSubmit s (.networkError m)).state.resultUrl = none ∧
        (handleSubmit s (.networkError m)).state.successMessage = none) ∧
    (∀ status m, (handleSubmit s (.response status (.invalid m))).state.errorMessage
          = some (orDefault m "An unexpected error occurred.") ∧
        (handleSubmit s (.response status (.invalid m))).state.resultUrl = none ∧
        (handleSubmit s (.response status (.invalid m))).state.successMessage = none) ∧
    (∀ v : String, v ≠ "" → orDefault (some v) "An unexpected error occurred." = v) ∧
    orDefault none "An unexpected error occurred." = "An unexpected error occurred." := by
  refine ⟨fun m => ?_, fun status m => ?_, fun v hv => ?_, rfl⟩
  · rw [handleSubmit_networkError s m h]; exact ⟨rfl, rfl, rfl⟩
  · rw [handleSubmit_invalid s status m h]; exact ⟨rfl, rfl, rfl⟩
  · simp [orDefault, beq_eq_false_iff_ne.mpr hv]

/-- Witness for C6: a thrown fetch with no exception message yields the
generic error message and no url. -/
theorem handleSubmit_transport_failure_witness :
    (handleSubmit sampleState (.networkError none)).state.errorMessage
      = some "An unexpected error occurred." ∧
    (handleSubmit sampleState (.networkError none)).state.resultUrl = none :=
  ⟨((handleSubmit_transport_failure sampleState (by decide)).1 none).1,
   ((handleSubmit_transport_failure sampleState (by decide)).1 none).2.1⟩

/-- C7: every resolved invocation of handleSubmit, on every branch, leaves
the loading flag false. -/
theorem handleSubmit_clears_loading (s : PageState) (outcome : FetchOutcome) :
    (handleSubmit s outcome).state.isLoading = false := by
  by_cases hp : parseIsrcs s.isrcInput = []
  · rw [handleSubmit_empty s outcome hp]
  · rcases outcome with m | ⟨status, data | m⟩
    · rw [handleSubmit_networkError s m hp]
    · cases hok : responseOk status <;> cases hsucc : data.success
      · rw [handleSubmit_json_fail s status data hp (Or.inl hok)]
      · rw [handleSubmit_json_fail s status data hp (Or.inl hok)]
      · rw [handleSubmit_json_fail s status data hp (Or.inr hsucc)]
      · rw [handleSubmit_json_ok s status data hp hok hsucc]
    · rw [handleSubmit_invalid s status m hp]

/-- C8: exactly one of the four outcomes {none, loading, success, error} is
displayed in the initial state, while a request is in flight, and after any
resolved invocation; and a new submit depends only on the raw input, fully
overwriting any prior outcome fields. -/
theorem handleSubmit_display_exclusive :
    displayCount initState = 1 ∧
    (∀ s : PageState, displayCount (loadingState s) = 1) ∧
    (∀ s outcome, displayCount (handleSubmit s outcome).state = 1) ∧
    (∀ s t outcome, s.isrcInput = t.isrcInput →
        handleSubmit s outcome = handleSubmit t outcome) := by
  refine ⟨by decide, fun s => ?_, fun s outcome => ?_, fun s t outcome hst => ?_⟩
  · simp [displayCount, loadingState, showsLoading, showsSuccess, showsError,
      showsNone, truthy]
  · by_cases hp : parseIsrcs s.isrcInput = []
    · rw [handleSubmit_empty s outcome hp]
      exact displayCount_error_state _ _ _ (by decide)
    · rcases outcome with m | ⟨status, data | m⟩
      · rw [handleSubmit_networkError s m hp]
        exact displayCount_error_state _ _ _ (orDefault_ne_empty m _ (by decide))
      · cases hok : responseOk status <;> cases hsucc : data.success
        · rw [handleSubmit_json_fail s status data hp (Or.inl hok)]
          exact displayCount_error_state _ _ _
            (orDefault_ne_empty _ _ (statusMessage_ne_empty status))
        · rw [handleSubmit_json_fail s status data hp (Or.inl hok)]
          exact displayCount_error_state _ _ _
            (orDefault_ne_empty _ _ (statusMessage_ne_empty status))
        · rw [handleSubmit_json_fail s status data hp (Or.inr hsucc)]
          exact displayCount_error_state _ _ _
            (orDefault_ne_empty _ _ (statusMessage_ne_empty status))
        · rw [handleSubmit_json_ok s status data hp hok hsucc]
          exact displayCount_success_state _ _ _ (orDefault_ne_empty _ _ (by decide))
      · rw [handleSubmit_invalid s status m hp]
        exact displayCount_error_state _ _ _ (orDefault_ne_empty m _ (by decide))
  · have hl : loadingState s = loadingState t := by
      cases s; cases t; simp_all [loadingState]
    simp only [handleSubmit]
    rw [hl]

/-- Witness for C8: after a concrete resolved attempt exactly one outcome is
displayed, and submitting with a stale error field gives the same result as
submitting from a clean state with the same input. -/
theorem handleSubmit_display_exclusive_witness :
    displayCount (handleSubmit sampleState (.networkError none)).state = 1 ∧
    handleSubmit { sampleState with errorMessage := some "old" } (.networkError none)
      = handleSubmit sampleState (.networkError none) :=
  ⟨handleSubmit_display_exclusive.2.2.1 sampleState (.networkError none),
   handleSubmit_display_exclusive.2.2.2 { sampleState with errorMessage := some "old" }
     sampleState (.networkError none) rfl⟩

/-- C9: the raw input is cleared exactly on the success branch; every other
branch (validation error, failure response, transport or parse failure)
leaves it unchanged. -/
theorem handleSubmit_input_frame (s : PageState) (outcome : FetchOutcome) :
    (handleSubmit s outcome).state.isrcInput =
      (if isSuccessOutcome s outcome then "" else s.isrcInput) := by
  by_cases hp : parseIsrcs s.isrcInput = []
  · rw [handleSubmit_empty s outcome hp]
    simp [isSuccessOutcome, hp]
  · have hne : (parseIsrcs s.isrcInput).isEmpty = false := by
      cases hq : parseIsrcs s.isrcInput with
      | nil => exact absurd hq hp
      | cons a l => rfl
    rcases outcome with m | ⟨status, data | m⟩
    · rw [handleSubmit_networkError s m hp]; simp [isSuccessOutcome, hne]
    · cases hok : responseOk status <;> cases hsucc : data.success
      · rw [handleSubmit_json_fail s status data hp (Or.inl hok)]
        simp [isSuccessOutcome, hne, hok, hsucc]
      · rw [handleSubmit_json_fail s status data hp (Or.inl hok)]
        simp [isSuccessOutcome, hne, hok, hsucc]
      · rw [handleSubmit_json_fail s status data hp (Or.inr hsucc)]
        simp [isSuccessOutcome, hne, hok, hsucc]
      · rw [handleSubmit_json_ok s status data hp hok hsucc]
        simp [isSuccessOutcome, hne, hok, hsucc]
    · rw [handleSubmit_invalid s status m hp]; simp [isSuccessOutcome, hne]

/-- C10: presence of response fields is decided by truthiness: an empty
message string falls back to the default in both the success and the failure
branch, and an empty url string in a failure payload is not surfaced. -/
theorem handleSubmit_truthiness (s : PageState) (status : Nat)
    (u m : Option String) (h : parseIsrcs s.isrcInput ≠ []) :
    (responseOk status = true →
      (handleSubmit s (.response status (.json ⟨true, some "", u⟩))).state.successMessage
        = some "Success!") ∧
    ((handleSubmit s (.response status (.json ⟨false, some "", u⟩))).state.errorMessage
        = some (statusMessage status)) ∧
    ((handleSubmit s (.response status (.json ⟨false, m, some ""⟩))).state.resultUrl
        = none) := by
  refine ⟨fun hok => ?_, ?_, ?_⟩
  · rw [handleSubmit_json_ok s status ⟨true, some "", u⟩ h hok rfl]
    simp [orDefault]
  · rw [handleSubmit_json_fail s status ⟨false, some "", u⟩ h (Or.inr rfl)]
    simp [orDefault]
  · rw [handleSubmit_json_fail s status ⟨false, m, some ""⟩ h (Or.inr rfl)]
    simp [truthy]

/-- Witness for C10 at concrete responses with empty message and url fields. -/
theorem handleSubmit_truthiness_witness :
    (handleSubmit sampleState (.response 200 (.json ⟨true, some "", none⟩))).state.successMessage
      = some "Success!" ∧
    (handleSubmit sampleState (.response 200 (.json ⟨false, some "", none⟩))).state.errorMessage
      = some (statusMessage 200) ∧
    (handleSubmit sampleState (.response 200 (.json ⟨false, none, some ""⟩))).state.resultUrl
      = none :=
  ⟨(handleSubmit_truthiness sampleState 200 none none (by decide)).1 rfl,
   (handleSubmit_truthiness sampleState 200 none none (by decide)).2.1,
   (handleSubmit_truthiness sampleState 200 none none (by decide)).2.2⟩

end IsrcsToDab
